import Mathlib

/-
  Verification of the twt_media_scraper program (src/main.py) against its
  natural-language specification.

  The Python module is shallowly embedded below.  JSON values are an
  inductive type; Python dictionary/list accesses are modelled by functions
  into `Except PyErr`, where an `.error` value represents a Python exception
  escaping the expression; the documented `try/except` blocks of the source
  are modelled by matching on those errors exactly where the source catches
  them.  The network is a parameter: an `api` function maps an endpoint and
  query parameters to a `ReqOutcome` (either a transport failure or a
  response with a status code and a parsed JSON body).
-/

set_option linter.unusedVariables false
set_option linter.unnecessarySeqFocus false

/-- JSON values as returned by the vendor API.  Numbers are modelled as
integers: the payload fields this program consumes (`bitrate`, ids) are
integral. -/
inductive Json where
  | null
  | bool (b : Bool)
  | num (n : Int)
  | str (s : String)
  | arr (xs : List Json)
  | obj (kvs : List (String × Json))

/-- Python exceptions that the embedded code can raise. -/
inductive PyErr where
  | keyError (k : String)
  | indexError
  | typeError
  | attributeError
  | nameError
deriving Repr, DecidableEq

/-- First-match lookup in a string-keyed association list (dict access). -/
def jLookup (k : String) : List (String × Json) → Option Json
  | [] => none
  | (k2, v) :: rest => if k2 = k then some v else jLookup k rest

/-- Python `==` between a JSON value and a string literal: true exactly for
the equal string, false on every other value (never raises). -/
def jsonEqStr (j : Json) (s : String) : Bool :=
  match j with
  | .str t => t == s
  | _ => false

/-- Python truthiness of a JSON value. -/
def truthy : Json → Bool
  | .null => false
  | .bool b => b
  | .num n => n != 0
  | .str s => !(s == "")
  | .arr xs => !xs.isEmpty
  | .obj kvs => !kvs.isEmpty

/-- Total spec-side defaulting read (what `x.get(k, d)` computes on a dict;
yields the default on any non-dict).  Used in theorem statements. -/
def jGetD (j : Json) (k : String) (d : Json) : Json :=
  match j with
  | .obj kvs => (jLookup k kvs).getD d
  | _ => d

/-- Python `x.get(k, d)`: defaulting lookup on a dict; AttributeError when
the receiver is not a dict. -/
def pyGetD : Json → String → Json → Except PyErr Json
  | .obj kvs, k, d => .ok ((jLookup k kvs).getD d)
  | _, _, _ => .error .attributeError

/-- Python `x[k]` for a string key: KeyError on a missing key, TypeError on
a non-dict receiver. -/
def pySubStr : Json → String → Except PyErr Json
  | .obj kvs, k =>
    match jLookup k kvs with
    | some v => .ok v
    | none => .error (.keyError k)
  | _, _ => .error .typeError

/-- Python `x[i]` for a non-negative integer index: list indexing with
IndexError out of range; a dict raises KeyError (its keys are strings
here); a string yields its i-th character. -/
def pySubInt : Json → Nat → Except PyErr Json
  | .arr xs, i =>
    match xs.get? i with
    | some v => .ok v
    | none => .error .indexError
  | .obj _, _ => .error (.keyError "int")
  | .str s, i =>
    match s.toList.get? i with
    | some c => .ok (.str (String.mk [c]))
    | none => .error .indexError
  | _, _ => .error .typeError

/-- Python subscript on an `Optional` value: `None[k]` is a TypeError. -/
def pySubOpt : Option Json → String → Except PyErr Json
  | none, _ => .error .typeError
  | some j, k => pySubStr j k

/-- Python `for x in j`: lists iterate their elements, dicts their keys,
strings their characters; other values raise TypeError. -/
def iterElems : Json → Except PyErr (List Json)
  | .arr xs => .ok xs
  | .obj kvs => .ok (kvs.map fun p => Json.str p.1)
  | .str s => .ok (s.toList.map fun c => Json.str (String.mk [c]))
  | _ => .error .typeError

/-- Python `str(...)` of a JSON value (container reprs abbreviated; no
claim depends on the rendering of containers). -/
def pyStr : Json → String
  | .str s => s
  | .num n => toString n
  | .bool true => "True"
  | .bool false => "False"
  | .null => "None"
  | .arr _ => "<list>"
  | .obj _ => "<dict>"

/-- Outcome of one `requests.get` call: either a transport failure (no
response object exists) or a response carrying a status code and a parsed
JSON body. -/
inductive ReqOutcome where
  | transportErr (msg : String)
  | resp (status : Nat) (body : Json)

/-- Embedding of `make_request` (src/main.py lines 16-39).
`response.raise_for_status()` raises HTTPError exactly for 4xx/5xx.  In the
`except` handler the source evaluates `response.status_code if response
else 500`: `bool(response)` is `Response.ok`, which is False exactly when
`raise_for_status` would raise, so in this handler it is always False and
500 is returned; on a transport failure the name `response` was never
bound, so evaluating it raises UnboundLocalError (modelled as
`.nameError`). -/
def make_request (o : ReqOutcome) : Except PyErr (Option Json × Nat × Option String) :=
  match o with
  | .transportErr _msg => .error .nameError
  | .resp status body =>
    if 400 ≤ status ∧ status < 600 then
      .ok (none, 500, some ("HTTP error " ++ toString status))
    else
      .ok (some body, status, none)

/-- Embedding of `download_media` (src/main.py lines 41-73), abstracting
the network/extractor as a `fetchOk` flag.  Returns the path of the file
written, or `none` when the attempt failed and the exception was caught
(logged).  A `photo` download with a non-string URL (in particular the
Python value `None`) calls `requests.get(None)`, which raises
`MissingSchema`, a `RequestException`, caught by the handler: no file is
written.  A `video` download delegates to the external extractor inside a
blanket `except Exception` handler. -/
def download_media (url : Json) (file_name : String) (media_type : String)
    (fetchOk : Bool) : Option String :=
  if media_type = "photo" then
    match url with
    | .str _ => if fetchOk then some file_name else none
    | _ => none
  else if media_type = "video" then
    match url with
    | .str _ => if fetchOk then some file_name else none
    | _ => none
  else none

/-- The per-post fields extracted by the lister, without the sequential id. -/
structure RecordCore where
  created_at : Json
  text : Json
  media_type : Json
  media_url : Json

/-- A manifest record produced by `get_user_media`: the locally assigned
1-based sequential id plus the extracted fields. -/
structure MediaRecord where
  id : Nat
  created_at : Json
  text : Json
  media_type : Json
  media_url : Json

def mkRec (k : Nat) (c : RecordCore) : MediaRecord :=
  ⟨k, c.created_at, c.text, c.media_type, c.media_url⟩

def MediaRecord.core (r : MediaRecord) : RecordCore :=
  ⟨r.created_at, r.text, r.media_type, r.media_url⟩

/-- Spec-side test: is this variant declared as `video/mp4`?  Mirrors the
comprehension filter `v['content_type'] == 'video/mp4'` on a well-shaped
variant. -/
def isMp4 (v : Json) : Bool :=
  match v with
  | .obj kvs =>
    match jLookup "content_type" kvs with
    | some ct => jsonEqStr ct "video/mp4"
    | none => false
  | _ => false

/-- Spec-side bitrate of a variant, absent treated as 0 (the key function
`x.get('bitrate', 0)` of the source's `max`). -/
def bitrateD (v : Json) : Int :=
  match v with
  | .obj kvs =>
    match jLookup "bitrate" kvs with
    | some (.num n) => n
    | _ => 0
  | _ => 0

/-- Spec-side URL field of a variant. -/
def urlD (v : Json) : Json := jGetD v "url" Json.null

/-- Well-shaped variant: a dict with `content_type` and `url` present and
`bitrate` absent or numeric. -/
def WFVariant (v : Json) : Bool :=
  match v with
  | .obj kvs =>
    (jLookup "content_type" kvs).isSome && (jLookup "url" kvs).isSome &&
      (match jLookup "bitrate" kvs with
       | none => true
       | some (.num _) => true
       | some _ => false)
  | _ => false

/-- The list comprehension `[v for v in variants if v['content_type'] ==
'video/mp4']` (src/main.py line 118).  The unguarded subscript raises
KeyError on a variant without `content_type`. -/
def filterMp4 : List Json → Except PyErr (List Json)
  | [] => .ok []
  | v :: vs =>
    match pySubStr v "content_type" with
    | .error e => .error e
    | .ok ct =>
      match filterMp4 vs with
      | .error e => .error e
      | .ok rest => .ok (if jsonEqStr ct "video/mp4" then v :: rest else rest)

/-- Python `>` between the bitrate keys (ints compare; anything else is a
TypeError, as in Python 3). -/
def pyGt (a b : Json) : Except PyErr Bool :=
  match a, b with
  | .num x, .num y => .ok (decide (y < x))
  | _, _ => .error .typeError

/-- Embedding of `max(mp4_variants, key=lambda x: x.get('bitrate', 0))` (line 120):
keeps the current best, replacing it only on a strictly greater key, so
the first maximum wins ties, as in CPython. -/
def maxByBitrate (best : Json) : List Json → Except PyErr Json
  | [] => .ok best
  | v :: vs =>
    match pyGetD v "bitrate" (Json.num 0) with
    | .error e => .error e
    | .ok kv =>
      match pyGetD best "bitrate" (Json.num 0) with
      | .error e => .error e
      | .ok kb =>
        match pyGt kv kb with
        | .error e => .error e
        | .ok true => maxByBitrate v vs
        | .ok false => maxByBitrate best vs

/-- Lines 118-120: filter the variants to `video/mp4`, and if any remain
take the URL of the one with the maximum bitrate; otherwise `media_url`
stays `None`. -/
def selectUrl (vlist : List Json) : Except PyErr Json :=
  match filterMp4 vlist with
  | .error e => .error e
  | .ok mp4s =>
    match mp4s with
    | [] => .ok Json.null
    | v :: vs =>
      match maxByBitrate v vs with
      | .error e => .error e
      | .ok m => pySubStr m "url"

/-- Lines 102-111: the skip tests of the entry loop.  Yields `none` when
the entry is skipped (`continue`), and `some (result, media)` — the tweet
result and the extended-entities media list — when the entry qualifies. -/
def entryQual (e : Json) : Except PyErr (Option (Json × Json)) :=
  match pyGetD e "content" (Json.obj []) with
  | .error err => .error err
  | .ok content =>
    match pyGetD content "entryType" Json.null with
    | .error err => .error err
    | .ok et =>
      if jsonEqStr et "TimelineTimelineItem" then
        match pyGetD content "itemContent" (Json.obj []) with
        | .error err => .error err
        | .ok ic =>
          match pyGetD ic "tweet_results" (Json.obj []) with
          | .error err => .error err
          | .ok tr =>
            match pyGetD tr "result" (Json.obj []) with
            | .error err => .error err
            | .ok result =>
              match pyGetD result "legacy" (Json.obj []) with
              | .error err => .error err
              | .ok lg =>
                match pyGetD lg "extended_entities" (Json.obj []) with
                | .error err => .error err
                | .ok ee =>
                  match pyGetD ee "media" (Json.arr []) with
                  | .error err => .error err
                  | .ok media =>
                    if truthy media then .ok (some (result, media))
                    else .ok none
      else .ok none

/-- Embedding of `media_entities[0].get('video_info', {}).get('variants', [])` followed
by iteration (lines 117-118). -/
def variantsFrom (media : Json) : Except PyErr (List Json) :=
  match pySubInt media 0 with
  | .error e => .error e
  | .ok m0 =>
    match pyGetD m0 "video_info" (Json.obj []) with
    | .error e => .error e
    | .ok vi =>
      match pyGetD vi "variants" (Json.arr []) with
      | .error e => .error e
      | .ok vs => iterElems vs

/-- Lines 113-131 after the skip tests: media type from the first media
entity, URL selection for videos, `created_at`/`full_text` extraction. -/
def finishEntry (result media : Json) : Except PyErr RecordCore :=
  match pySubInt media 0 with
  | .error e => .error e
  | .ok m0 =>
    match pyGetD m0 "type" Json.null with
    | .error e => .error e
    | .ok mtype =>
      match (if jsonEqStr mtype "video" then
               match variantsFrom media with
               | .error e => .error e
               | .ok vlist => selectUrl vlist
             else .ok Json.null : Except PyErr Json) with
      | .error e => .error e
      | .ok murl =>
        match pyGetD result "legacy" (Json.obj []) with
        | .error e => .error e
        | .ok lg =>
          match pyGetD lg "created_at" Json.null with
          | .error e => .error e
          | .ok created =>
            match pyGetD lg "full_text" Json.null with
            | .error e => .error e
            | .ok ftext => .ok ⟨created, ftext, mtype, murl⟩

/-- One full iteration of the entry loop: `none` when the entry is
skipped, `some` record fields when one is emitted. -/
def processEntry (e : Json) : Except PyErr (Option RecordCore) :=
  match entryQual e with
  | .error err => .error err
  | .ok none => .ok none
  | .ok (some (result, media)) =>
    match finishEntry result media with
    | .error err => .error err
    | .ok c => .ok (some c)

/-- All entries processed left to right, no counter.  Used to state
correspondence theorems. -/
def mapProcess : List Json → Except PyErr (List (Option RecordCore))
  | [] => .ok []
  | e :: es =>
    match processEntry e with
    | .error err => .error err
    | .ok o =>
      match mapProcess es with
      | .error err => .error err
      | .ok os => .ok (o :: os)

/-- The entry loop of `get_user_media` (lines 93-132): `full_counter`
starts at `k` and is incremented only when a record is emitted. -/
def buildRecords : List Json → Nat → Except PyErr (List MediaRecord)
  | [], _ => .ok []
  | e :: es, k =>
    match processEntry e with
    | .error err => .error err
    | .ok none => buildRecords es k
    | .ok (some c) =>
      match buildRecords es (k + 1) with
      | .error err => .error err
      | .ok rest => .ok (mkRec k c :: rest)

/-- Spec-side qualification test, written with the total defaulting reader
`jGetD`: the content's entry-type tag equals "TimelineTimelineItem" and
the tweet result's extended-entities media list is non-empty. -/
def qualifies (e : Json) : Bool :=
  jsonEqStr (jGetD (jGetD e "content" (Json.obj [])) "entryType" Json.null)
      "TimelineTimelineItem" &&
    truthy (jGetD (jGetD (jGetD (jGetD (jGetD (jGetD
      (jGetD e "content" (Json.obj [])) "itemContent" (Json.obj []))
      "tweet_results" (Json.obj [])) "result" (Json.obj []))
      "legacy" (Json.obj [])) "extended_entities" (Json.obj []))
      "media" (Json.arr []))

/-- The mp4 variant candidates of a qualifying video entry (composition of
the embedded readers); `.ok []` for skipped entries. -/
def entryVariants (e : Json) : Except PyErr (List Json) :=
  match entryQual e with
  | .error err => .error err
  | .ok none => .ok []
  | .ok (some (_, media)) => variantsFrom media

/-- Embedding of `data['result']['data']['user']['result']['rest_id']` (line 152). -/
def resolverChain (d : Option Json) : Except PyErr Json :=
  match pySubOpt d "result" with
  | .error e => .error e
  | .ok a =>
    match pySubStr a "data" with
    | .error e => .error e
    | .ok b =>
      match pySubStr b "user" with
      | .error e => .error e
      | .ok c =>
        match pySubStr c "result" with
        | .error e => .error e
        | .ok d2 => pySubStr d2 "rest_id"

/-- Embedding of `data['result']['timeline']['instructions'][1]['entries']` (line 97). -/
def entriesChain (d : Option Json) : Except PyErr Json :=
  match pySubOpt d "result" with
  | .error e => .error e
  | .ok a =>
    match pySubStr a "timeline" with
    | .error e => .error e
    | .ok b =>
      match pySubStr b "instructions" with
      | .error e => .error e
      | .ok c =>
        match pySubInt c 1 with
        | .error e => .error e
        | .ok i => pySubStr i "entries"

/-- The body of `get_user_id` after the status check (lines 151-155): the
`try`/`except KeyError` around the resolver chain.  Any other exception
(e.g. TypeError from a wrong-typed node) propagates. -/
def userIdFromBody (d : Option Json) : Except PyErr (Option Json) :=
  match resolverChain d with
  | .ok v => .ok (some v)
  | .error (.keyError _) => .ok none
  | .error e => .error e

/-- Embedding of `get_user_id` (lines 136-155). -/
def get_user_id (username : String)
    (api : String → List (String × String) → ReqOutcome) :
    Except PyErr (Option Json) :=
  match make_request (api "user" [("username", username)]) with
  | .error e => .error e
  | .ok (data, status, _terr) =>
    if status ≠ 200 then .ok none
    else userIdFromBody data

/-- The body of `get_user_media` after the status check (lines 93-134):
the `try`/`except (KeyError, IndexError)` around the instructions path,
then the entry loop (outside the `try`: its exceptions propagate). -/
def get_user_media_of_data (d : Option Json) :
    Except PyErr (Option (List MediaRecord)) :=
  match entriesChain d with
  | .error (.keyError _) => .ok none
  | .error .indexError => .ok none
  | .error e => .error e
  | .ok entries =>
    match iterElems entries with
    | .error e => .error e
    | .ok l =>
      match buildRecords l 1 with
      | .error e => .error e
      | .ok recs => .ok (some recs)

/-- Embedding of `get_user_media` (lines 75-134).  `count` reaches only
the query string. -/
def get_user_media (user_id : Json) (count : Int)
    (api : String → List (String × String) → ReqOutcome) :
    Except PyErr (Option (List MediaRecord)) :=
  match make_request
      (api "user-media" [("user", pyStr user_id), ("count", toString count)]) with
  | .error e => .error e
  | .ok (data, status, _terr) =>
    if status ≠ 200 then .ok none
    else get_user_media_of_data data

/-- Observable outcome of one `main` run: the exit code, whether usage
text was printed, the directories created, the download attempts (URL
value passed, destination path, type), and the manifest written (path and
record sequence). -/
structure OrchResult where
  exitCode : Nat
  printedUsage : Bool
  dirs : List String
  downloads : List (Json × String × String)
  manifest : Option (String × List MediaRecord)

def photoPath (username : String) (i : Nat) : String :=
  "medias/" ++ username ++ "/photos/" ++ toString i ++ ".jpg"

def videoPath (username : String) (i : Nat) : String :=
  "medias/" ++ username ++ "/videos/video_" ++ toString i ++ ".mp4"

/-- The download step planned for one record by the loop at lines
194-198: photos and videos are attempted, any other type is silently
skipped. -/
def downloadPlan (username : String) (d : MediaRecord) :
    Option (Json × String × String) :=
  if jsonEqStr d.media_type "photo" then
    some (d.media_url, photoPath username d.id, "photo")
  else if jsonEqStr d.media_type "video" then
    some (d.media_url, videoPath username d.id, "video")
  else none

/-- Lines 186-201: directory creation, the download loop, and the
unconditional manifest write. -/
def runPipeline (username : String) (datas : List MediaRecord) : OrchResult :=
  { exitCode := 0
    printedUsage := false
    dirs := ["medias/" ++ username, "medias/" ++ username ++ "/photos",
             "medias/" ++ username ++ "/videos"]
    downloads := datas.filterMap (downloadPlan username)
    manifest := some ("medias/" ++ username ++ "/data.json", datas) }

/-- Accumulate decimal digits; `none` when a non-digit appears or the
digit string is empty. -/
def digitsVal : List Char → Option Nat → Option Nat
  | [], acc => acc
  | c :: cs, acc =>
    if c.isDigit then
      digitsVal cs (some ((acc.getD 0) * 10 + (c.toNat - 48)))
    else none

/-- Python `int(s)` on a plain decimal string (optional leading minus);
`none` models ValueError. -/
def pyParseInt (s : String) : Option Int :=
  match s.toList with
  | '-' :: cs => (digitsVal cs none).map fun n => -(n : Int)
  | cs => (digitsVal cs none).map fun n => (n : Int)

/-- Embedding of `count = int(sys.argv[4])` guarded by `except (ValueError,
IndexError)` (lines 170-176); `none` means exit code 1. -/
def parseCount : List String → Option Int
  | [] => some 5
  | copt :: rest =>
    if copt = "--count" ∨ copt = "-c" then
      match rest with
      | [] => none
      | s :: _ => pyParseInt s
    else some 5

/-- Embedding of `main` (lines 157-201).  `argv` includes the program name
at index 0, as `sys.argv` does.  (Named `main_py` because the bare name
`main` is reserved for executables in Lean.) -/
def main_py (argv : List String)
    (api : String → List (String × String) → ReqOutcome) :
    Except PyErr OrchResult :=
  match argv with
  | _ :: flag :: username :: rest =>
    if flag = "--username" ∨ flag = "-u" then
      match parseCount rest with
      | none => .ok ⟨1, false, [], [], none⟩
      | some count =>
        match get_user_id username api with
        | .error e => .error e
        | .ok none => .ok ⟨1, false, [], [], none⟩
        | .ok (some uid) =>
          match get_user_media uid count api with
          | .error e => .error e
          | .ok none => .ok ⟨1, false, [], [], none⟩
          | .ok (some datas) => .ok (runPipeline username datas)
    else .ok ⟨1, true, [], [], none⟩
  | _ => .ok ⟨1, true, [], [], none⟩

/-! ### Concrete scenario data -/

/-- A `user` response body with `result.data.user.result.rest_id = "42"`. -/
def userBody : Json :=
  .obj [("result", .obj [("data", .obj [("user", .obj [("result",
    .obj [("rest_id", .str "42")])])])])]

/-- A qualifying photo entry. -/
def photoEntry : Json :=
  .obj [("content", .obj [
    ("entryType", .str "TimelineTimelineItem"),
    ("itemContent", .obj [("tweet_results", .obj [("result", .obj [
      ("legacy", .obj [
        ("created_at", .str "Mon Jan 01 2024"),
        ("full_text", .str "a photo"),
        ("extended_entities", .obj [("media", .arr [
          .obj [("type", .str "photo")]])])])])])])])]

/-- A qualifying video entry with a single mp4 variant. -/
def videoEntry : Json :=
  .obj [("content", .obj [
    ("entryType", .str "TimelineTimelineItem"),
    ("itemContent", .obj [("tweet_results", .obj [("result", .obj [
      ("legacy", .obj [
        ("created_at", .str "Tue Jan 02 2024"),
        ("full_text", .str "a video"),
        ("extended_entities", .obj [("media", .arr [
          .obj [("type", .str "video"),
                ("video_info", .obj [("variants", .arr [
                  .obj [("content_type", .str "video/mp4"),
                        ("bitrate", .num 832000),
                        ("url", .str "https://v.example/v.mp4")]])])]])])])])])])])]

/-- A non-qualifying entry (a timeline cursor). -/
def cursorEntry : Json :=
  .obj [("content", .obj [("entryType", .str "TimelineTimelineCursor")])]

/-- A qualifying entry of a third media type. -/
def gifEntry : Json :=
  .obj [("content", .obj [
    ("entryType", .str "TimelineTimelineItem"),
    ("itemContent", .obj [("tweet_results", .obj [("result", .obj [
      ("legacy", .obj [
        ("extended_entities", .obj [("media", .arr [
          .obj [("type", .str "animated_gif")]])])])])])])])]

/-- A qualifying video entry whose only variant lacks `content_type`. -/
def badVariantEntry : Json :=
  .obj [("content", .obj [
    ("entryType", .str "TimelineTimelineItem"),
    ("itemContent", .obj [("tweet_results", .obj [("result", .obj [
      ("legacy", .obj [
        ("extended_entities", .obj [("media", .arr [
          .obj [("type", .str "video"),
                ("video_info", .obj [("variants", .arr [
                  .obj [("bitrate", .num 100)]])])]])])])])])])])]

/-- Wrap entries into a `user-media` body at the documented path. -/
def mediaBody (entries : List Json) : Json :=
  .obj [("result", .obj [("timeline", .obj [("instructions", .arr [
    .obj [], .obj [("entries", .arr entries)]])])])]

/-- The spec's worked example: an mp4 variant at bitrate 500. -/
def exMp4a : Json :=
  .obj [("content_type", .str "video/mp4"), ("bitrate", .num 500),
        ("url", .str "u500")]

/-- The spec's worked example: an mp4 variant at bitrate 1200. -/
def exMp4b : Json :=
  .obj [("content_type", .str "video/mp4"), ("bitrate", .num 1200),
        ("url", .str "u1200")]

/-- The spec's worked example: a webm variant at bitrate 2000. -/
def exWebm : Json :=
  .obj [("content_type", .str "video/webm"), ("bitrate", .num 2000),
        ("url", .str "u2000")]

/-- Variant list of the spec's worked example: two mp4 variants at 500
and 1200 and a webm variant at 2000. -/
def exVariants : List Json := [exMp4a, exMp4b, exWebm]

/-- Mocked API for the end-to-end photo+video scenario. -/
def apiPhotoVideo : String → List (String × String) → ReqOutcome :=
  fun ep _ =>
    if ep = "user" then .resp 200 userBody
    else .resp 200 (mediaBody [photoEntry, videoEntry])

/-- Mocked API whose media listing holds one animated-gif post. -/
def apiGif : String → List (String × String) → ReqOutcome :=
  fun ep _ =>
    if ep = "user" then .resp 200 userBody
    else .resp 200 (mediaBody [gifEntry])

/-- Mocked API that always answers 404. -/
def api404 : String → List (String × String) → ReqOutcome :=
  fun _ _ => .resp 404 Json.null

/-- Mocked API whose media listing holds no entries at all. -/
def apiEmpty : String → List (String × String) → ReqOutcome :=
  fun ep _ =>
    if ep = "user" then .resp 200 userBody
    else .resp 200 (mediaBody [])

def photoRec : MediaRecord :=
  ⟨1, .str "Mon Jan 01 2024", .str "a photo", .str "photo", .null⟩

def videoRec : MediaRecord :=
  ⟨2, .str "Tue Jan 02 2024", .str "a video", .str "video",
   .str "https://v.example/v.mp4"⟩

def gifRec : MediaRecord :=
  ⟨1, .null, .null, .str "animated_gif", .null⟩


/-! ### Helper lemmas -/

theorem jsonEqStr_true_iff (j : Json) (s : String) :
    jsonEqStr j s = true ↔ j = .str s := by
  cases j <;> simp [jsonEqStr]

theorem pyGetD_ok_eq {j : Json} {k : String} {d v : Json}
    (h : pyGetD j k d = .ok v) : jGetD j k d = v := by
  cases j <;> simp [pyGetD] at h <;> simp [jGetD, h]

theorem pyGetD_bitrate {v : Json} (h : WFVariant v = true) :
    pyGetD v "bitrate" (Json.num 0) = .ok (Json.num (bitrateD v)) := by
  cases v <;> simp [WFVariant] at h
  case obj kvs =>
    rcases hb : jLookup "bitrate" kvs with _ | val
    · simp [pyGetD, bitrateD, hb]
    · cases val <;> simp [hb] at h <;> simp [pyGetD, bitrateD, hb]

theorem pySubStr_url {v : Json} (h : WFVariant v = true) :
    pySubStr v "url" = .ok (urlD v) := by
  cases v <;> simp [WFVariant] at h
  case obj kvs =>
    obtain ⟨⟨-, hu⟩, -⟩ := h
    rcases hl : jLookup "url" kvs with _ | u
    · rw [hl] at hu; simp at hu
    · simp [pySubStr, hl, urlD, jGetD]

theorem isMp4_of_sub {v ct : Json} (h : pySubStr v "content_type" = .ok ct) :
    isMp4 v = jsonEqStr ct "video/mp4" := by
  cases v <;> simp [pySubStr] at h
  case obj kvs =>
    rcases hc : jLookup "content_type" kvs with _ | u <;> rw [hc] at h
    · simp at h
    · simp at h; simp [isMp4, hc, h]

theorem filterMp4_ok : ∀ (vs l : List Json), filterMp4 vs = .ok l →
    l = vs.filter isMp4 := by
  intro vs
  induction vs with
  | nil => intro l h; cases h; rfl
  | cons v vs ih =>
    intro l h
    unfold filterMp4 at h
    split at h
    · exact Except.noConfusion h
    rename_i ct hct
    split at h
    · exact Except.noConfusion h
    rename_i rest hrest
    cases h
    rw [List.filter_cons, ← isMp4_of_sub hct, ih rest hrest]

theorem filterMp4_of_WF : ∀ (vs : List Json),
    (∀ v ∈ vs, WFVariant v = true) → filterMp4 vs = .ok (vs.filter isMp4) := by
  intro vs
  induction vs with
  | nil => intro _; rfl
  | cons v vs ih =>
    intro h
    have hv := h v (List.mem_cons_self v vs)
    have hct : ∃ ct, pySubStr v "content_type" = .ok ct := by
      cases v <;> simp [WFVariant] at hv
      case obj kvs =>
        obtain ⟨⟨hc, -⟩, -⟩ := hv
        rcases hl : jLookup "content_type" kvs with _ | u
        · rw [hl] at hc; simp at hc
        · exact ⟨u, by simp [pySubStr, hl]⟩
    obtain ⟨ct, hc⟩ := hct
    have hrest := ih (fun w hw => h w (List.mem_cons_of_mem v hw))
    simp only [filterMp4, hc, hrest, List.filter_cons, ← isMp4_of_sub hc]

theorem maxByBitrate_spec : ∀ (rest : List Json) (best : Json),
    WFVariant best = true → (∀ w ∈ rest, WFVariant w = true) →
    ∃ m, maxByBitrate best rest = .ok m ∧ (m = best ∨ m ∈ rest) ∧
      WFVariant m = true ∧ bitrateD best ≤ bitrateD m ∧
      ∀ w ∈ rest, bitrateD w ≤ bitrateD m := by
  intro rest
  induction rest with
  | nil =>
    intro best hb _
    exact ⟨best, rfl, Or.inl rfl, hb, le_refl _, by simp⟩
  | cons v vs ih =>
    intro best hb hr
    have hv : WFVariant v = true := hr v (List.mem_cons_self v vs)
    have hvs : ∀ w ∈ vs, WFVariant w = true :=
      fun w hw => hr w (List.mem_cons_of_mem v hw)
    by_cases hlt : bitrateD best < bitrateD v
    · obtain ⟨m, hm, hmem, hwf, hle, hall⟩ := ih v hv hvs
      refine ⟨m, ?_, ?_, hwf, le_trans (le_of_lt hlt) hle, ?_⟩
      · simp [maxByBitrate, pyGetD_bitrate hv, pyGetD_bitrate hb, pyGt, hlt, hm]
      · rcases hmem with rfl | hmm
        · exact Or.inr (List.mem_cons_self m vs)
        · exact Or.inr (List.mem_cons_of_mem v hmm)
      · intro w hw
        rcases List.mem_cons.mp hw with rfl | hwv
        · exact hle
        · exact hall w hwv
    · obtain ⟨m, hm, hmem, hwf, hle, hall⟩ := ih best hb hvs
      refine ⟨m, ?_, ?_, hwf, hle, ?_⟩
      · simp [maxByBitrate, pyGetD_bitrate hv, pyGetD_bitrate hb, pyGt, hlt, hm]
      · rcases hmem with rfl | hmm
        · exact Or.inl rfl
        · exact Or.inr (List.mem_cons_of_mem v hmm)
      · intro w hw
        rcases List.mem_cons.mp hw with rfl | hwv
        · exact le_trans (not_lt.mp hlt) hle
        · exact hall w hwv

theorem entryQual_isSome (e : Json) (r : Option (Json × Json))
    (h : entryQual e = .ok r) : r.isSome = qualifies e := by
  unfold entryQual at h
  split at h
  · exact Except.noConfusion h
  rename_i content hcontent
  split at h
  · exact Except.noConfusion h
  rename_i et het
  split at h
  · -- entry-type tag matches
    rename_i hcond
    split at h
    · exact Except.noConfusion h
    rename_i ic hic
    split at h
    · exact Except.noConfusion h
    rename_i tr htr
    split at h
    · exact Except.noConfusion h
    rename_i result hres
    split at h
    · exact Except.noConfusion h
    rename_i lg hlg
    split at h
    · exact Except.noConfusion h
    rename_i ee hee
    split at h
    · exact Except.noConfusion h
    rename_i media hmedia
    split at h
    · -- media truthy: emitted
      rename_i htruthy
      cases h
      simp [qualifies, pyGetD_ok_eq hcontent, pyGetD_ok_eq het,
        pyGetD_ok_eq hic, pyGetD_ok_eq htr, pyGetD_ok_eq hres,
        pyGetD_ok_eq hlg, pyGetD_ok_eq hee, pyGetD_ok_eq hmedia,
        hcond, htruthy]
    · -- media empty: skipped
      rename_i htruthy
      cases h
      simp [qualifies, pyGetD_ok_eq hcontent, pyGetD_ok_eq het,
        pyGetD_ok_eq hic, pyGetD_ok_eq htr, pyGetD_ok_eq hres,
        pyGetD_ok_eq hlg, pyGetD_ok_eq hee, pyGetD_ok_eq hmedia,
        htruthy]
  · -- entry-type tag does not match: skipped
    rename_i hcond
    cases h
    simp only [Bool.not_eq_true] at hcond
    simp [qualifies, pyGetD_ok_eq hcontent, pyGetD_ok_eq het, hcond]

theorem processEntry_isSome (e : Json) (o : Option RecordCore)
    (h : processEntry e = .ok o) : o.isSome = qualifies e := by
  unfold processEntry at h
  split at h
  · exact Except.noConfusion h
  · rename_i hq
    cases h
    simpa using entryQual_isSome e none hq
  · rename_i result media hq
    split at h
    · exact Except.noConfusion h
    rename_i c hc
    cases h
    simpa using entryQual_isSome e (some (result, media)) hq

theorem mapProcess_isSome : ∀ (es : List Json) (opts : List (Option RecordCore)),
    mapProcess es = .ok opts → opts.map Option.isSome = es.map qualifies := by
  intro es
  induction es with
  | nil => intro opts h; cases h; rfl
  | cons e es ih =>
    intro opts h
    unfold mapProcess at h
    split at h
    · exact Except.noConfusion h
    rename_i o ho
    split at h
    · exact Except.noConfusion h
    rename_i os hos
    cases h
    simp [processEntry_isSome e o ho, ih os hos]

theorem range'_cons (k n : Nat) :
    List.range' k (n + 1) = k :: List.range' (k + 1) n := rfl

theorem buildRecords_spec : ∀ (entries : List Json) (k : Nat)
    (l : List MediaRecord), buildRecords entries k = .ok l →
    ∃ opts, mapProcess entries = .ok opts ∧
      l.map MediaRecord.core = opts.filterMap id ∧
      l.map MediaRecord.id = List.range' k l.length := by
  intro entries
  induction entries with
  | nil =>
    intro k l h
    cases h
    exact ⟨[], rfl, rfl, rfl⟩
  | cons e es ih =>
    intro k l h
    unfold buildRecords at h
    split at h
    · exact Except.noConfusion h
    · rename_i hp
      obtain ⟨opts, hm, hc, hi⟩ := ih k l h
      refine ⟨none :: opts, ?_, ?_, hi⟩
      · simp [mapProcess, hp, hm]
      · simpa using hc
    · rename_i c hp
      split at h
      · exact Except.noConfusion h
      rename_i rest hrest
      cases h
      obtain ⟨opts, hm, hc, hi⟩ := ih (k + 1) rest hrest
      refine ⟨some c :: opts, ?_, ?_, ?_⟩
      · simp [mapProcess, hp, hm]
      · simpa [mkRec, MediaRecord.core] using hc
      · simp [List.length_cons, range'_cons, mkRec, hi]

theorem filterMap_length_of_map_eq :
    ∀ (xs : List (Option RecordCore)) (ys : List Json),
    xs.map Option.isSome = ys.map qualifies →
    (xs.filterMap id).length = (ys.filter qualifies).length := by
  intro xs
  induction xs with
  | nil =>
    intro ys h
    cases ys with
    | nil => rfl
    | cons y ys => simp at h
  | cons x xs ih =>
    intro ys h
    cases ys with
    | nil => simp at h
    | cons y ys =>
      simp only [List.map_cons, List.cons.injEq] at h
      obtain ⟨h1, h2⟩ := h
      cases x with
      | none =>
        simp only [List.filterMap_cons, id, List.filter_cons, ← h1,
          Option.isSome_none, Bool.false_eq_true, if_false]
        exact ih ys h2
      | some c =>
        simp only [List.filterMap_cons, id, List.filter_cons, ← h1,
          Option.isSome_some, if_true]
        simp [ih ys h2]

theorem selectUrl_ne_null {vlist : List Json} {murl : Json}
    (h : selectUrl vlist = .ok murl) (hne : murl ≠ Json.null) :
    ∃ v, v ∈ vlist ∧ isMp4 v = true := by
  unfold selectUrl at h
  split at h
  · exact Except.noConfusion h
  rename_i mp4s hf
  split at h
  · cases h; exact absurd rfl hne
  rename_i v vs
  have hfl := filterMp4_ok vlist (v :: vs) hf
  have hv : v ∈ vlist.filter isMp4 := by
    rw [← hfl]; exact List.mem_cons_self v vs
  exact ⟨v, List.mem_of_mem_filter hv, List.of_mem_filter hv⟩

theorem finishEntry_url {result media : Json} {c : RecordCore}
    (h : finishEntry result media = .ok c) :
    (c.media_url ≠ Json.null → c.media_type = Json.str "video" ∧
      ∃ vlist, variantsFrom media = .ok vlist ∧
        ∃ v, v ∈ vlist ∧ isMp4 v = true) ∧
    (c.media_type ≠ Json.str "video" → c.media_url = Json.null) := by
  unfold finishEntry at h
  split at h
  · exact Except.noConfusion h
  rename_i m0 hm0
  split at h
  · exact Except.noConfusion h
  rename_i mtype hmt
  split at h
  · exact Except.noConfusion h
  rename_i murl hmurl
  split at h
  · exact Except.noConfusion h
  rename_i lg hlg
  split at h
  · exact Except.noConfusion h
  rename_i created hcr
  split at h
  · exact Except.noConfusion h
  rename_i ftext hft
  cases h
  constructor
  · intro hne
    simp only at hne
    split at hmurl
    · rename_i hvid
      constructor
      · exact (jsonEqStr_true_iff mtype "video").mp hvid
      · split at hmurl
        · exact Except.noConfusion hmurl
        rename_i vlist hvl
        exact ⟨vlist, hvl, selectUrl_ne_null hmurl hne⟩
    · cases hmurl; exact absurd rfl hne
  · intro hnv
    simp only at hnv ⊢
    split at hmurl
    · rename_i hvid
      exact absurd ((jsonEqStr_true_iff mtype "video").mp hvid) hnv
    · cases hmurl; rfl

theorem buildRecords_all_none : ∀ (es : List Json) (k : Nat),
    (∀ e ∈ es, processEntry e = .ok none) → buildRecords es k = .ok [] := by
  intro es
  induction es with
  | nil => intro k _; rfl
  | cons e es ih =>
    intro k h
    have he := h e (List.mem_cons_self e es)
    have hrest := ih k (fun w hw => h w (List.mem_cons_of_mem e hw))
    simp [buildRecords, he, hrest]

/-! ### Claim theorems -/

/-- Counterexample to C1 as frozen: a response body with two qualifying
entries — a photo entry and a video entry whose only variant lacks
`content_type` — on which the lister does not return two records (or any
records): line 118's bare `v['content_type']` subscript sits outside the
`try`, so the whole call raises KeyError. -/
theorem qualifying_entries_without_records :
    qualifies photoEntry = true ∧ qualifies badVariantEntry = true ∧
    get_user_media_of_data
        (some (mediaBody [photoEntry, badVariantEntry])) =
      .error (.keyError "content_type") :=
  ⟨rfl, rfl, rfl⟩

/-- Claim C1 as amended: for a user-media response on which the lister
completes without raising (it returns a record list), it emits one record
per qualifying entry, in the order the entries appear, with sequential
ids 1..N assigned in traversal order and incremented only for emitted
records.  `opts` records, per entry, whether it was emitted; the record
cores are exactly the emitted ones in order, the ids are `1..l.length`,
and the number of records equals the number of qualifying entries. -/
theorem lister_returns_sequential_records (d : Option Json)
    (l : List MediaRecord) (h : get_user_media_of_data d = .ok (some l)) :
    ∃ entries elist, ∃ opts : List (Option RecordCore),
      entriesChain d = .ok entries ∧ iterElems entries = .ok elist ∧
      mapProcess elist = .ok opts ∧
      opts.map Option.isSome = elist.map qualifies ∧
      l.map MediaRecord.core = opts.filterMap id ∧
      l.map MediaRecord.id = List.range' 1 l.length ∧
      l.length = (elist.filter qualifies).length := by
  unfold get_user_media_of_data at h
  split at h
  · exact Option.noConfusion (Except.ok.inj h)
  · exact Option.noConfusion (Except.ok.inj h)
  · exact Except.noConfusion h
  · rename_i entries hch
    split at h
    · exact Except.noConfusion h
    rename_i elist hit
    split at h
    · exact Except.noConfusion h
    rename_i recs hbr
    have hl : recs = l := Option.some.inj (Except.ok.inj h)
    subst hl
    obtain ⟨opts, hm, hc, hi⟩ := buildRecords_spec elist 1 recs hbr
    have hq := mapProcess_isSome elist opts hm
    refine ⟨entries, elist, opts, hch, hit, hm, hq, hc, hi, ?_⟩
    have hlen := filterMap_length_of_map_eq opts elist hq
    calc recs.length = (recs.map MediaRecord.core).length := by simp
      _ = (opts.filterMap id).length := by rw [hc]
      _ = (elist.filter qualifies).length := hlen

/-- Witness for C1 at a concrete response body: a photo entry, a cursor
entry (skipped) and a video entry produce records with ids 1 and 2. -/
theorem lister_returns_sequential_records_check :
    get_user_media_of_data
        (some (mediaBody [photoEntry, cursorEntry, videoEntry])) =
      .ok (some [photoRec, videoRec]) ∧
    ∃ entries elist, ∃ opts : List (Option RecordCore),
      entriesChain (some (mediaBody [photoEntry, cursorEntry, videoEntry])) =
        .ok entries ∧
      iterElems entries = .ok elist ∧
      mapProcess elist = .ok opts ∧
      opts.map Option.isSome = elist.map qualifies ∧
      [photoRec, videoRec].map MediaRecord.core = opts.filterMap id ∧
      [photoRec, videoRec].map MediaRecord.id =
        List.range' 1 [photoRec, videoRec].length ∧
      [photoRec, videoRec].length = (elist.filter qualifies).length :=
  ⟨rfl, lister_returns_sequential_records _ _ rfl⟩

/-- Claim C2: among well-shaped variants, the selection keeps only
`video/mp4` variants; if none remain the URL stays unset, otherwise the
selected URL is that of an mp4 variant whose (defaulted) bitrate is
maximal among the mp4 variants. -/
theorem video_variant_selection (vs : List Json)
    (hw : ∀ v ∈ vs, WFVariant v = true) :
    (vs.filter isMp4 = [] → selectUrl vs = .ok Json.null) ∧
    (∀ a l2, vs.filter isMp4 = a :: l2 →
      ∃ m, m ∈ vs.filter isMp4 ∧ selectUrl vs = .ok (urlD m) ∧
        ∀ w ∈ vs.filter isMp4, bitrateD w ≤ bitrateD m) := by
  have hf : filterMp4 vs = .ok (vs.filter isMp4) := filterMp4_of_WF vs hw
  constructor
  · intro he
    simp [selectUrl, hf, he]
  · intro a l2 he
    have hsub : ∀ w ∈ vs.filter isMp4, WFVariant w = true :=
      fun w hwm => hw w (List.mem_of_mem_filter hwm)
    have ha : WFVariant a = true :=
      hsub a (by rw [he]; exact List.mem_cons_self a l2)
    have hl2 : ∀ w ∈ l2, WFVariant w = true :=
      fun w hwm => hsub w (by rw [he]; exact List.mem_cons_of_mem a hwm)
    obtain ⟨m, hm, hmem, hwfm, hle, hall⟩ := maxByBitrate_spec l2 a ha hl2
    refine ⟨m, ?_, ?_, ?_⟩
    · rw [he]
      rcases hmem with rfl | hmm
      · exact List.mem_cons_self m l2
      · exact List.mem_cons_of_mem a hmm
    · simp [selectUrl, hf, he, hm, pySubStr_url hwfm]
    · intro w hwm
      rw [he] at hwm
      rcases List.mem_cons.mp hwm with rfl | hwv
      · exact hle
      · exact hall w hwv

/-- Witness for C2 at the spec's worked example
[(mp4, 500), (mp4, 1200), (webm, 2000)]: the selected URL is "u1200". -/
theorem video_variant_selection_check :
    selectUrl exVariants = .ok (.str "u1200") ∧
    (∀ v ∈ exVariants, WFVariant v = true) ∧
    ∃ m, m ∈ exVariants.filter isMp4 ∧ selectUrl exVariants = .ok (urlD m) ∧
      ∀ w ∈ exVariants.filter isMp4, bitrateD w ≤ bitrateD m :=
  ⟨rfl, by decide,
   (video_variant_selection exVariants (by decide)).2 exMp4a [exMp4b] rfl⟩

/-- Claim C3 (code bug): the client never returns the status code of a
failed response.  For a 404, `bool(response)` is False (Response truth
value is `ok`), so the handler returns 500, not 404; on a transport
failure with no response, the handler's `response` is an unbound local and
UnboundLocalError propagates; and a non-2xx 3xx status (304) is returned
as a success, body and all, because `raise_for_status` only raises for
4xx/5xx. -/
theorem make_request_failure_behavior :
    make_request (.resp 404 (Json.obj [])) =
      .ok (none, 500, some ("HTTP error " ++ toString 404)) ∧
    make_request (.transportErr "connection refused") = .error .nameError ∧
    make_request (.resp 304 Json.null) = .ok (some Json.null, 304, none) :=
  ⟨rfl, rfl, rfl⟩

/-- Counterexample to C4: a body whose documented path is fully present
and whose single qualifying video entry has a variant without
`content_type`.  The subscript `v['content_type']` (line 118) sits outside
the `try` block, so the lister raises KeyError to the caller instead of
returning absent. -/
theorem missing_variant_key_raises :
    get_user_media_of_data (some (mediaBody [badVariantEntry])) =
      .error (.keyError "content_type") ∧
    get_user_media_of_data (some (mediaBody [badVariantEntry])) ≠ .ok none :=
  ⟨rfl, fun hc => Except.noConfusion hc⟩

/-- Claim C4 as amended: a missing dictionary key along the resolver path,
and a missing key or out-of-range index along the lister's instructions
path, are caught and converted to an absent result; absences below the
per-entry defaulting reads are not all caught (see the counterexample). -/
theorem path_absence_caught :
    (∀ (d : Option Json) (k : String),
      resolverChain d = .error (.keyError k) → userIdFromBody d = .ok none) ∧
    (∀ (d : Option Json) (k : String),
      entriesChain d = .error (.keyError k) →
        get_user_media_of_data d = .ok none) ∧
    (∀ d : Option Json, entriesChain d = .error .indexError →
        get_user_media_of_data d = .ok none) := by
  refine ⟨?_, ?_, ?_⟩
  · intro d k h; simp [userIdFromBody, h]
  · intro d k h; simp [get_user_media_of_data, h]
  · intro d h; simp [get_user_media_of_data, h]

/-- Witness for the amended C4: an empty-object body misses `result` at
the first segment of both paths; both functions return absent. -/
theorem path_absence_caught_check :
    userIdFromBody (some (Json.obj [])) = .ok none ∧
    get_user_media_of_data (some (Json.obj [])) = .ok none :=
  ⟨path_absence_caught.1 (some (Json.obj [])) "result" rfl,
   path_absence_caught.2.1 (some (Json.obj [])) "result" rfl⟩

/-- Claim C5 (code bug): the `-u alice -c 2` run against the mocked
photo+video API.  The video file path and the two-element manifest with
media types photo and video come out as specified, but the photo record
carries `media_url = None` (the lister never sets it for photos), so the
photo download calls `requests.get(None)`, which raises and is caught: no
photo file is produced even when every fetch succeeds. -/
theorem photo_video_run_eval :
    main_py ["main.py", "-u", "alice", "-c", "2"] apiPhotoVideo =
      .ok (runPipeline "alice" [photoRec, videoRec]) ∧
    (runPipeline "alice" [photoRec, videoRec]).downloads =
      [(Json.null, "medias/alice/photos/1.jpg", "photo"),
       (Json.str "https://v.example/v.mp4",
        "medias/alice/videos/video_2.mp4", "video")] ∧
    (runPipeline "alice" [photoRec, videoRec]).manifest =
      some ("medias/alice/data.json", [photoRec, videoRec]) ∧
    photoRec.media_type = .str "photo" ∧
    videoRec.media_type = .str "video" ∧
    photoRec.media_url = Json.null ∧
    download_media Json.null "medias/alice/photos/1.jpg" "photo" true = none ∧
    download_media (.str "https://v.example/v.mp4")
      "medias/alice/videos/video_2.mp4" "video" true =
      some "medias/alice/videos/video_2.mp4" :=
  ⟨rfl, rfl, rfl, rfl, rfl, rfl, rfl, rfl⟩

/-- Counterexample to C6: a run whose single manifest record has media
type `animated_gif`.  The record appears in the manifest while the
download list is empty: it was never attempted for download. -/
theorem manifest_record_without_download_attempt :
    main_py ["main.py", "-u", "alice"] apiGif =
      .ok (runPipeline "alice" [gifRec]) ∧
    (runPipeline "alice" [gifRec]).manifest =
      some ("medias/alice/data.json", [gifRec]) ∧
    (runPipeline "alice" [gifRec]).downloads = [] :=
  ⟨rfl, rfl, rfl⟩

/-- Claim C6 as amended: on every run that reaches the download loop, the
manifest is written with the full record sequence, the download attempts
are exactly those planned for the photo and video records (in order), and
a record is skipped by the loop exactly when its media type is neither
"photo" nor "video" — skipped records still appear in the manifest.  The
manifest never depends on the outcome of any download attempt (the
pipeline takes no fetch outcomes at all). -/
theorem manifest_after_download_loop (argv : List String)
    (api : String → List (String × String) → ReqOutcome) (r : OrchResult)
    (h : main_py argv api = .ok r) (h0 : r.exitCode = 0) :
    ∃ u ds, argv.get? 2 = some u ∧
      r.manifest = some ("medias/" ++ u ++ "/data.json", ds) ∧
      r.downloads = ds.filterMap (downloadPlan u) ∧
      (∀ d ∈ ds, ∀ x, downloadPlan u d = some x → x ∈ r.downloads) ∧
      (∀ d ∈ ds, downloadPlan u d = none →
        jsonEqStr d.media_type "photo" = false ∧
        jsonEqStr d.media_type "video" = false) := by
  unfold main_py at h
  split at h
  · rename_i prog flag username rest
    split at h
    · split at h
      · cases h; simp at h0
      · rename_i count hcount
        split at h
        · exact Except.noConfusion h
        · cases h; simp at h0
        · rename_i uid huid
          split at h
          · exact Except.noConfusion h
          · cases h; simp at h0
          · rename_i datas hdatas
            cases h
            refine ⟨username, datas, by simp, rfl, rfl, ?_, ?_⟩
            · intro d hd x hx
              simp only [runPipeline]
              exact List.mem_filterMap.mpr ⟨d, hd, hx⟩
            · intro d hd hnone
              unfold downloadPlan at hnone
              split at hnone
              · exact Option.noConfusion hnone
              · rename_i h1
                split at hnone
                · exact Option.noConfusion hnone
                · rename_i h2
                  exact ⟨by simpa using h1, by simpa using h2⟩
    · cases h; simp at h0
  · cases h; simp at h0

/-- Witness for the amended C6 at the animated-gif run. -/
theorem manifest_after_download_loop_check :
    ∃ u ds, (["main.py", "-u", "alice"] : List String).get? 2 = some u ∧
      (runPipeline "alice" [gifRec]).manifest =
        some ("medias/" ++ u ++ "/data.json", ds) ∧
      (runPipeline "alice" [gifRec]).downloads =
        ds.filterMap (downloadPlan u) ∧
      (∀ d ∈ ds, ∀ x, downloadPlan u d = some x →
        x ∈ (runPipeline "alice" [gifRec]).downloads) ∧
      (∀ d ∈ ds, downloadPlan u d = none →
        jsonEqStr d.media_type "photo" = false ∧
        jsonEqStr d.media_type "video" = false) :=
  manifest_after_download_loop ["main.py", "-u", "alice"] apiGif
    (runPipeline "alice" [gifRec]) rfl rfl

/-- Claim C7: when the resolver's API call comes back with status 404 the
orchestrator exits with code 1 before creating any directory: no
directories, no download attempts, no manifest. -/
theorem resolver_failure_exits_before_output (username : String)
    (api : String → List (String × String) → ReqOutcome) (body : Json)
    (h : api "user" [("username", username)] = .resp 404 body) :
    main_py ["main.py", "-u", username] api = .ok ⟨1, false, [], [], none⟩ := by
  have hreq : make_request (api "user" [("username", username)]) =
      .ok (none, 500, some ("HTTP error " ++ toString 404)) := by
    rw [h]; rfl
  simp [main_py, parseCount, get_user_id, hreq]

/-- Witness for C7 against an API that always answers 404. -/
theorem resolver_failure_exits_before_output_check :
    main_py ["main.py", "-u", "alice"] api404 = .ok ⟨1, false, [], [], none⟩ :=
  resolver_failure_exits_before_output "alice" api404 Json.null rfl

/-- Counterexample to C8 as frozen: the body `mediaBody [Json.null]`
parses to the documented path and contains zero qualifying entries, yet
the lister does not return the empty list: the loop's
`entry.get('content', {})` on the null entry raises AttributeError
outside the `try`, so the call raises instead of returning. -/
theorem zero_qualifying_entries_raises :
    qualifies Json.null = false ∧
    entriesChain (some (mediaBody [Json.null])) = .ok (.arr [Json.null]) ∧
    get_user_media_of_data (some (mediaBody [Json.null])) =
      .error .attributeError ∧
    get_user_media_of_data (some (mediaBody [Json.null])) ≠ .ok (some []) :=
  ⟨rfl, rfl, rfl, fun hc => Except.noConfusion hc⟩

/-- Claim C8 as amended: a response that parses to the documented path
and whose entries are each skipped by the loop without raising (in
particular an empty entry list, as for a count = 0 request) makes the
lister return the empty list (not absent), and the orchestrator proceeds
past the listing step to the end of the run (exit 0, empty manifest
written) — here with `-c 0`. -/
theorem empty_listing_returns_empty_and_proceeds (username : String)
    (api : String → List (String × String) → ReqOutcome)
    (ub mb uid : Json) (es : List Json)
    (h1 : api "user" [("username", username)] = .resp 200 ub)
    (h2 : resolverChain (some ub) = .ok uid)
    (h3 : api "user-media"
      [("user", pyStr uid), ("count", toString (0 : Int))] = .resp 200 mb)
    (h4 : entriesChain (some mb) = .ok (.arr es))
    (h5 : ∀ e ∈ es, processEntry e = .ok none) :
    get_user_media uid 0 api = .ok (some []) ∧
    main_py ["main.py", "-u", username, "-c", "0"] api =
      .ok (runPipeline username []) := by
  have hreq1 : make_request (api "user" [("username", username)]) =
      .ok (some ub, 200, none) := by rw [h1]; rfl
  have hreq2 : make_request (api "user-media"
      [("user", pyStr uid), ("count", toString (0 : Int))]) =
      .ok (some mb, 200, none) := by rw [h3]; rfl
  have hbr : buildRecords es 1 = .ok [] := buildRecords_all_none es 1 h5
  have hgm : get_user_media uid 0 api = .ok (some []) := by
    simp [get_user_media, hreq2, get_user_media_of_data, h4, iterElems, hbr]
  have hpc : parseCount ["-c", "0"] = some 0 := rfl
  refine ⟨hgm, ?_⟩
  simp [main_py, hpc, get_user_id, hreq1, userIdFromBody, h2, hgm]

/-- Witness for C8 against an API whose entry list is empty. -/
theorem empty_listing_returns_empty_and_proceeds_check :
    get_user_media (.str "42") 0 apiEmpty = .ok (some []) ∧
    main_py ["main.py", "-u", "alice", "-c", "0"] apiEmpty =
      .ok (runPipeline "alice" []) :=
  empty_listing_returns_empty_and_proceeds "alice" apiEmpty userBody
    (mediaBody []) (.str "42") [] rfl rfl rfl rfl (by simp)

/-- Claim C9: an emitted record has a non-null media_url only when its
media type is "video" and the first media entity's variant list contains
a `video/mp4` variant; any record of a different type has media_url
unset. -/
theorem media_url_requires_video_mp4 (e : Json) (c : RecordCore)
    (h : processEntry e = .ok (some c)) :
    (c.media_url ≠ Json.null → c.media_type = Json.str "video" ∧
      ∃ vlist, entryVariants e = .ok vlist ∧
        ∃ v, v ∈ vlist ∧ isMp4 v = true) ∧
    (c.media_type ≠ Json.str "video" → c.media_url = Json.null) := by
  unfold processEntry at h
  split at h
  · exact Except.noConfusion h
  · rename_i hq
    exact Option.noConfusion (Except.ok.inj h)
  · rename_i result media hq
    split at h
    · exact Except.noConfusion h
    rename_i c0 hc0
    have hcc : c0 = c := Option.some.inj (Except.ok.inj h)
    subst hcc
    have hfin := finishEntry_url hc0
    have hev : entryVariants e = variantsFrom media := by
      simp [entryVariants, hq]
    constructor
    · intro hne
      obtain ⟨hty, vlist, hvl, hex⟩ := hfin.1 hne
      exact ⟨hty, vlist, by rw [hev]; exact hvl, hex⟩
    · exact hfin.2

/-- Witness for C9 at the concrete video entry. -/
theorem media_url_requires_video_mp4_check :
    processEntry videoEntry = .ok (some videoRec.core) ∧
    ((videoRec.core.media_url ≠ Json.null →
      videoRec.core.media_type = Json.str "video" ∧
      ∃ vlist, entryVariants videoEntry = .ok vlist ∧
        ∃ v, v ∈ vlist ∧ isMp4 v = true) ∧
    (videoRec.core.media_type ≠ Json.str "video" →
      videoRec.core.media_url = Json.null)) :=
  ⟨rfl, media_url_requires_video_mp4 videoEntry videoRec.core rfl⟩

/-- Claim C10: the requested count reaches only the query string of the
API call; whenever the API answers the two query strings identically, the
record list is identical for any two count values. -/
theorem count_only_reaches_query_string (uid : Json) (c1 c2 : Int)
    (api : String → List (String × String) → ReqOutcome)
    (h : api "user-media" [("user", pyStr uid), ("count", toString c1)] =
         api "user-media" [("user", pyStr uid), ("count", toString c2)]) :
    get_user_media uid c1 api = get_user_media uid c2 api := by
  unfold get_user_media
  rw [h]

/-- Witness for C10: an API that ignores the query string yields the same
records for counts 1 and 99. -/
theorem count_only_reaches_query_string_check :
    get_user_media (.str "42") 1 apiPhotoVideo =
      get_user_media (.str "42") 99 apiPhotoVideo :=
  count_only_reaches_query_string (.str "42") 1 99 apiPhotoVideo rfl
